import Mathlib

/-! point2dem: geometric preparation and rasterization orchestration

A shallow embedding of `src/point2dem.cc`.  The program's `double`/`float`
quantities are modelled by exact rationals, so every statement below is a
statement about exact arithmetic.  The point image is a per-pixel view, so
each stage is modelled by the function it applies to one pixel.

Functions and types of the Vision Workbench library that the driver calls but
that are not part of this program (`euler_to_rotation_matrix`,
`xyz_to_lon_lat_radius`, `project_point_image`, the default `Datum`, the
freshly constructed rasterizer) are parameters, collected in `Workbench`.
-/

namespace Point2Dem

/-! ## Data model -/

/-- A `Vector3`: three real components. -/
structure Vector3 where
  x : ℚ
  y : ℚ
  z : ℚ
  deriving DecidableEq, Repr

/-- The value-initialised vector `T()`, which marks a missing pixel. -/
def Vector3.zero : Vector3 := ⟨0, 0, 0⟩

/-- Componentwise sum, `p + q`. -/
def Vector3.add (p q : Vector3) : Vector3 := ⟨p.x + q.x, p.y + q.y, p.z + q.z⟩

/-- A `Matrix3x3`, stored row by row. -/
structure Matrix3x3 where
  m00 : ℚ
  m01 : ℚ
  m02 : ℚ
  m10 : ℚ
  m11 : ℚ
  m12 : ℚ
  m20 : ℚ
  m21 : ℚ
  m22 : ℚ
  deriving DecidableEq, Repr

/-- The matrix-vector product `m * v`. -/
def Matrix3x3.mulVec (m : Matrix3x3) (v : Vector3) : Vector3 :=
  ⟨m.m00 * v.x + m.m01 * v.y + m.m02 * v.z,
   m.m10 * v.x + m.m11 * v.y + m.m12 * v.z,
   m.m20 * v.x + m.m21 * v.y + m.m22 * v.z⟩

/-- The identity matrix. -/
def Matrix3x3.identity : Matrix3x3 := ⟨1, 0, 0, 0, 1, 0, 0, 0, 1⟩

/-- `PointOffsetFunc(offset)(p)`: a pixel equal to `T()` is returned as it
is, any other pixel is shifted by the offset (point2dem.cc lines 57-68). -/
def PointOffsetFunc (offset : Vector3) (p : Vector3) : Vector3 :=
  if p = Vector3.zero then p else Vector3.add p offset

/-- `PointTransFunc(trans)(pt)`: the product `m_trans * pt`
(point2dem.cc lines 82-87). -/
def PointTransFunc (trans : Matrix3x3) (pt : Vector3) : Vector3 :=
  Matrix3x3.mulVec trans pt

/-- A `cartography::Datum` as the driver builds it: three names, the two
axes and the meridian offset, in constructor order. -/
structure Datum where
  name : String
  spheroid_name : String
  meridian_name : String
  semi_major_axis : ℚ
  semi_minor_axis : ℚ
  meridian_offset : ℚ
  deriving DecidableEq, Repr

/-- The projection setters of `GeoReference` that the driver calls, with
their arguments. -/
inductive ProjectionCall where
  | set_sinusoidal (proj_lon : ℚ)
  | set_mercator (proj_lat proj_lon proj_scale : ℚ)
  | set_transverse_mercator (proj_lat proj_lon proj_scale : ℚ)
  | set_orthographic (proj_lat proj_lon : ℚ)
  | set_stereographic (proj_lat proj_lon proj_scale : ℚ)
  | set_lambert_azimuthal (proj_lat proj_lon : ℚ)
  | set_UTM (zone : Nat)
  deriving DecidableEq, Repr

/-- A `GeoReference` seen from the driver: the datum it was constructed
with, the projection setters called on it so far (oldest first) and the
affine transforms given to `set_transform` (oldest first). -/
structure GeoReference where
  datum : Datum
  projection_calls : List ProjectionCall
  transforms : List Matrix3x3
  deriving DecidableEq, Repr

/-- The part of the `OrthoRasterizerView` state that the driver sets. -/
structure Rasterizer where
  use_minz_as_default : Bool
  default_value : ℚ
  use_alpha : Bool
  texture : Option String
  deriving DecidableEq, Repr

/-- The command line after parsing: one field per option the driver reads.
A flag is `true` when `vm.count` of it is non-zero; an option with a value
and no default is `none` when absent. -/
structure Options where
  help : Bool
  input_file : Option String
  default_value : Option ℚ
  use_alpha : Bool
  dem_spacing : ℚ
  normalized : Bool
  orthoimage : Option String
  offset_files : Bool
  out_prefix_str : String
  output_file_type : String
  xyz_to_lonlat : Bool
  reference_spheroid : String
  semi_major : ℚ
  semi_minor : ℚ
  z_offset : ℚ
  sinusoidal : Bool
  mercator : Bool
  transverse_mercator : Bool
  orthographic : Bool
  stereographic : Bool
  lambert_azimuthal : Bool
  utm : Option Nat
  proj_lat : ℚ
  proj_lon : ℚ
  proj_scale : ℚ
  rot_order : String
  phi_rot : ℚ
  omega_rot : ℚ
  kappa_rot : ℚ

/-- The Vision Workbench pieces the driver relies on. -/
structure Workbench where
  euler_to_rotation_matrix : ℚ → ℚ → ℚ → String → Matrix3x3
  xyz_to_lon_lat_radius : Vector3 → Vector3
  project_point_image : GeoReference → Vector3 → Vector3
  default_datum : Datum
  new_rasterizer : Rasterizer
  geo_transform : Matrix3x3

/-! ## The driver, block by block -/

/-- A per-pixel view of the point image: the value a pixel now has, as a
function of the value read from the input file. -/
abbrev PointImage := Vector3 → Vector3

/-- Lines 168-173: the optional rotation.  It is applied only when one of the
three angles is non-zero. -/
def apply_rotation (wb : Workbench) (o : Options) (point_image : PointImage) : PointImage :=
  if o.phi_rot ≠ 0 ∨ o.omega_rot ≠ 0 ∨ o.kappa_rot ≠ 0 then
    fun px => PointTransFunc
      (wb.euler_to_rotation_matrix o.phi_rot o.omega_rot o.kappa_rot o.rot_order)
      (point_image px)
  else point_image

/-- Lines 175-178: the optional conversion to longitude, latitude, radius. -/
def apply_xyz_to_lonlat (wb : Workbench) (o : Options) (point_image : PointImage) : PointImage :=
  if o.xyz_to_lonlat then fun px => wb.xyz_to_lon_lat_radius (point_image px)
  else point_image

/-- What the datum selection block ends with: a datum, or `exit(status)`. -/
inductive DatumSelection where
  | exit (status : Int)
  | selected (datum : Datum)
  deriving DecidableEq, Repr

/-- The constant `MOLA_PEDR_EQUATORIAL_RADIUS` of line 185. -/
def MOLA_PEDR_EQUATORIAL_RADIUS : ℚ := 3396000

/-- The constant `LUNAR_RADIUS` of line 194. -/
def LUNAR_RADIUS : ℚ := 1737400

/-- Lines 182-212: the datum selection.  `default_datum` is the
default-constructed `cartography::Datum`. -/
def select_datum (default_datum : Datum) (reference_spheroid : String)
    (semi_major semi_minor : ℚ) : DatumSelection :=
  if reference_spheroid ≠ "" then
    if reference_spheroid = "mars" then
      .selected ⟨"D_MARS", "MARS", "Reference Meridian",
        MOLA_PEDR_EQUATORIAL_RADIUS, MOLA_PEDR_EQUATORIAL_RADIUS, 0⟩
    else if reference_spheroid = "moon" then
      .selected ⟨"D_MOON", "MOON", "Reference Meridian", LUNAR_RADIUS, LUNAR_RADIUS, 0⟩
    else
      .exit 0
  else if semi_major ≠ 0 ∧ semi_minor ≠ 0 then
    .selected ⟨"User Specified Datum", "User Specified Spheroid", "Reference Meridian",
      semi_major, semi_minor, 0⟩
  else
    .selected default_datum

/-- Lines 214-217: the optional z-offset, applied only when it is non-zero. -/
def apply_z_offset (o : Options) (point_image : PointImage) : PointImage :=
  if o.z_offset ≠ 0 then fun px => PointOffsetFunc ⟨0, 0, o.z_offset⟩ (point_image px)
  else point_image

/-- A projection setter called on a georeference. -/
def GeoReference.call (g : GeoReference) (c : ProjectionCall) : GeoReference :=
  ⟨g.datum, g.projection_calls ++ [c], g.transforms⟩

/-- The call `set_transform(m)` on a georeference. -/
def GeoReference.set_transform (g : GeoReference) (m : Matrix3x3) : GeoReference :=
  ⟨g.datum, g.projection_calls, g.transforms ++ [m]⟩

/-- Lines 225-243: the georeference is constructed from the datum and the
projection is chosen by the chain of `if`/`else if`. -/
def configure_georef (o : Options) (datum : Datum) : GeoReference :=
  let georef : GeoReference := ⟨datum, [], []⟩
  if ¬ o.xyz_to_lonlat then georef.call (.set_mercator 0 0 1)
  else if o.sinusoidal then georef.call (.set_sinusoidal o.proj_lon)
  else if o.mercator then georef.call (.set_mercator o.proj_lat o.proj_lon o.proj_scale)
  else if o.transverse_mercator then
    georef.call (.set_transverse_mercator o.proj_lat o.proj_lon o.proj_scale)
  else if o.orthographic then georef.call (.set_orthographic o.proj_lat o.proj_lon)
  else if o.stereographic then
    georef.call (.set_stereographic o.proj_lat o.proj_lon o.proj_scale)
  else if o.lambert_azimuthal then georef.call (.set_lambert_azimuthal o.proj_lat o.proj_lon)
  else match o.utm with
    | some utm_zone => georef.call (.set_UTM utm_zone)
    | none => georef

/-- Lines 245-246: the points are reprojected when `--xyz-to-lonlat` is
present. -/
def apply_reprojection (wb : Workbench) (o : Options) (georef : GeoReference)
    (point_image : PointImage) : PointImage :=
  if o.xyz_to_lonlat then fun px => wb.project_point_image georef (point_image px)
  else point_image

/-- Lines 255-265: the default-value policy and the alpha flag are set on
the freshly constructed rasterizer. -/
def configure_rasterizer (wb : Workbench) (o : Options) : Rasterizer :=
  let rasterizer := wb.new_rasterizer
  let rasterizer : Rasterizer :=
    match o.default_value with
    | none => { rasterizer with use_minz_as_default := true }
    | some default_value =>
      { rasterizer with use_minz_as_default := false, default_value := default_value }
  if o.use_alpha then { rasterizer with use_alpha := true } else rasterizer

/-- Where the pixels of a written raster come from. -/
inductive RasterSource where
  | rasterizer (state : Rasterizer)
  | dem_file (file : String)
  deriving DecidableEq, Repr

/-- One call of `write_georeferenced_image`: the file, the source of its
pixels (for the rasterizer, its state when the pass is produced), whether
the pixels go through `channel_cast_rescale<uint8>`, and the georeference. -/
structure RasterWrite where
  file : String
  source : RasterSource
  rescaled_uint8 : Bool
  georef : GeoReference
  deriving DecidableEq, Repr

/-- Lines 275-295: the output passes. -/
def write_rasters (o : Options) (rasterizer : Rasterizer) (georef : GeoReference) :
    List RasterWrite :=
  match o.orthoimage with
  | some texture_filename =>
    let rasterizer := { rasterizer with use_minz_as_default := false }
    let rasterizer := { rasterizer with texture := some texture_filename }
    [⟨o.out_prefix_str ++ "-DRG.tif", .rasterizer rasterizer, true, georef⟩]
  | none =>
    let dem : RasterWrite :=
      ⟨o.out_prefix_str ++ "-DEM." ++ o.output_file_type, .rasterizer rasterizer, false, georef⟩
    if o.normalized then
      [dem, ⟨o.out_prefix_str ++ "-DEM-normalized.tif",
             .dem_file (o.out_prefix_str ++ "-DEM." ++ o.output_file_type), true, georef⟩]
    else [dem]

/-- Lines 298-308: the names of the offset files written. -/
def write_offset_files (o : Options) : List String :=
  if o.offset_files then
    [o.out_prefix_str ++ "-DRG.offset", o.out_prefix_str ++ "-DEM-normalized.offset"]
  else []

/-- What a run leaves behind: the exit status, the point image handed to
the reprojection block (after line 217), the point image cached for the
rasterizer (line 251), the finished georeference, and the files written, in
order.  The three optional fields are `none` when the run ends before the
corresponding line. -/
structure Outcome where
  exit_status : Int
  transformed : Option PointImage
  point_image_cache : Option PointImage
  georef : Option GeoReference
  rasters : List RasterWrite
  offset_files : List String

/-- The function `main` of point2dem.cc, lines 154-309, in source order. -/
def main (wb : Workbench) (o : Options) : Outcome :=
  if o.help then ⟨1, none, none, none, [], []⟩
  else if o.input_file.isNone then ⟨1, none, none, none, [], []⟩
  else
    let point_image : PointImage := fun px => px
    let point_image := apply_rotation wb o point_image
    let point_image := apply_xyz_to_lonlat wb o point_image
    match select_datum wb.default_datum o.reference_spheroid o.semi_major o.semi_minor with
    | .exit status => ⟨status, none, none, none, [], []⟩
    | .selected datum =>
      let point_image := apply_z_offset o point_image
      let transformed := point_image
      let georef := configure_georef o datum
      let point_image := apply_reprojection wb o georef point_image
      let rasterizer := configure_rasterizer wb o
      let georef := georef.set_transform wb.geo_transform
      let rasters := write_rasters o rasterizer georef
      let offsets := write_offset_files o
      ⟨0, some transformed, some point_image, some georef, rasters, offsets⟩

/-- The value handed to the reprojection block for an input pixel `px`,
when the run gets that far. -/
def transformed_point (wb : Workbench) (o : Options) (px : Vector3) : Option Vector3 :=
  (main wb o).transformed.map (fun f => f px)

/-- The value handed to the rasterizer for an input pixel `px`, when the run
gets that far. -/
def rasterized_point (wb : Workbench) (o : Options) (px : Vector3) : Option Vector3 :=
  (main wb o).point_image_cache.map (fun f => f px)

/-! ## Concrete inputs -/

/-- The option values a command line with only the input file yields: the
`default_value(...)` of each option and the initialisers of lines 95-101. -/
def default_options (input_file_name : String) : Options where
  help := false
  input_file := some input_file_name
  default_value := none
  use_alpha := false
  dem_spacing := 0
  normalized := false
  orthoimage := none
  offset_files := false
  out_prefix_str := "terrain"
  output_file_type := "tif"
  xyz_to_lonlat := false
  reference_spheroid := ""
  semi_major := 0
  semi_minor := 0
  z_offset := 0
  sinusoidal := false
  mercator := false
  transverse_mercator := false
  orthographic := false
  stereographic := false
  lambert_azimuthal := false
  utm := none
  proj_lat := 0
  proj_lon := 0
  proj_scale := 1
  rot_order := "xyz"
  phi_rot := 0
  omega_rot := 0
  kappa_rot := 0

/-- A quarter turn about the z axis. -/
def quarter_turn_z : Matrix3x3 := ⟨0, -1, 0, 1, 0, 0, 0, 0, 1⟩

/-- A stand-in library for concrete runs: every Euler triple gives the
quarter turn about z, the geodetic conversion keeps x and y and puts the
squared radius in the third component, the projection doubles x and y. -/
def sample_workbench : Workbench where
  euler_to_rotation_matrix := fun _ _ _ _ => quarter_turn_z
  xyz_to_lon_lat_radius := fun p => ⟨p.x, p.y, p.x * p.x + p.y * p.y + p.z * p.z⟩
  project_point_image := fun _ p => ⟨2 * p.x, 2 * p.y, p.z⟩
  default_datum := ⟨"D_WGS_1984", "WGS_1984", "Greenwich", 6378137, 6356752, 0⟩
  new_rasterizer := ⟨true, 0, false, none⟩
  geo_transform := Matrix3x3.identity

/-- The run gets past the three places where `main` can end early: no
`--help`, an input file, and a reference spheroid that is empty or known. -/
def Options.runs_through (o : Options) : Prop :=
  o.help = false ∧ o.input_file.isSome = true ∧
    (o.reference_spheroid = "" ∨ o.reference_spheroid = "mars" ∨ o.reference_spheroid = "moon")

instance (o : Options) : Decidable o.runs_through := by
  unfold Options.runs_through; infer_instance

/-- A rotation or an offset, as one step of a chain. -/
inductive PointStep where
  | trans (m : Matrix3x3)
  | offset (v : Vector3)

/-- One step applied to a pixel. -/
def PointStep.apply : PointStep → Vector3 → Vector3
  | .trans m, p => PointTransFunc m p
  | .offset v, p => PointOffsetFunc v p

/-- A chain of steps applied to a pixel, first step first. -/
def apply_steps (steps : List PointStep) (p : Vector3) : Vector3 :=
  steps.foldl (fun q s => s.apply q) p

/-- The projection flags in the order sinusoidal, mercator,
transverse-mercator, orthographic, stereographic, lambert-azimuthal, utm,
each with the setter call it stands for (for utm the zone is the value of the
option). -/
def projection_flags (o : Options) : List (Bool × ProjectionCall) :=
  [(o.sinusoidal, .set_sinusoidal o.proj_lon),
   (o.mercator, .set_mercator o.proj_lat o.proj_lon o.proj_scale),
   (o.transverse_mercator, .set_transverse_mercator o.proj_lat o.proj_lon o.proj_scale),
   (o.orthographic, .set_orthographic o.proj_lat o.proj_lon),
   (o.stereographic, .set_stereographic o.proj_lat o.proj_lon o.proj_scale),
   (o.lambert_azimuthal, .set_lambert_azimuthal o.proj_lat o.proj_lon),
   (o.utm.isSome, .set_UTM (o.utm.getD 0))]

/-- First-listed-wins, as the specification words it: the setter calls made
are the one call of the first flag that is set in `projection_flags`, and no
call when none is set. -/
def first_listed_wins (o : Options) : List ProjectionCall :=
  match (projection_flags o).find? (fun fc => fc.1) with
  | some fc => [fc.2]
  | none => []

/-- The projection setter calls the specification prescribes: the fixed
Mercator(0, 0, 1) without `--xyz-to-lonlat`, first-listed-wins with it. -/
def spec_projection_calls (o : Options) : List ProjectionCall :=
  if o.xyz_to_lonlat then first_listed_wins o else [.set_mercator 0 0 1]

/-- The command line
`point2dem --phi-rotation 90 --xyz-to-lonlat --z-offset 2 points.tif`:
all three geometric steps are requested. -/
def all_steps_options : Options :=
  { default_options "points.tif" with phi_rot := 90, xyz_to_lonlat := true, z_offset := 2 }

/-- The command line `point2dem --reference-spheroid europa points.tif`. -/
def europa_options : Options :=
  { default_options "points.tif" with reference_spheroid := "europa" }

/-- The command line `point2dem` with no input file. -/
def no_input_options : Options :=
  { default_options "points.tif" with input_file := none }

/-- The command line
`point2dem --orthoimage texture.tif --normalized --default-value 7 points.tif`. -/
def orthoimage_options : Options :=
  { default_options "points.tif" with
    orthoimage := some "texture.tif", normalized := true, default_value := some 7 }

/-- The command line
`point2dem --xyz-to-lonlat --mercator --utm 12 --orthographic --proj-lat 10
--proj-lon 20 -r moon points.tif`. -/
def projection_options : Options :=
  { default_options "points.tif" with
    xyz_to_lonlat := true, mercator := true, utm := some 12, orthographic := true,
    proj_lat := 10, proj_lon := 20, reference_spheroid := "moon" }

/-- The geometric steps a command line requests, as a list in the order
rotation, conversion to longitude/latitude/radius, vertical offset; a step
that is not requested is left out. -/
def ordered_steps (wb : Workbench) (o : Options) : List (Vector3 → Vector3) :=
  (if o.phi_rot ≠ 0 ∨ o.omega_rot ≠ 0 ∨ o.kappa_rot ≠ 0 then
    [PointTransFunc
      (wb.euler_to_rotation_matrix o.phi_rot o.omega_rot o.kappa_rot o.rot_order)]
   else []) ++
  (if o.xyz_to_lonlat then [wb.xyz_to_lon_lat_radius] else []) ++
  (if o.z_offset ≠ 0 then [PointOffsetFunc ⟨0, 0, o.z_offset⟩] else [])

/-- A list of steps applied to a pixel, first step first. -/
def run_steps (steps : List (Vector3 → Vector3)) (p : Vector3) : Vector3 :=
  steps.foldl (fun q f => f q) p

/-! ## Basic facts -/

theorem Vector3.ext_iff3 (p q : Vector3) : p = q ↔ p.x = q.x ∧ p.y = q.y ∧ p.z = q.z := by
  cases p; cases q; simp

theorem PointTransFunc_zero (m : Matrix3x3) : PointTransFunc m Vector3.zero = Vector3.zero := by
  simp [PointTransFunc, Matrix3x3.mulVec, Vector3.zero]

theorem PointOffsetFunc_zero (v : Vector3) : PointOffsetFunc v Vector3.zero = Vector3.zero := by
  simp [PointOffsetFunc]

theorem PointOffsetFunc_of_ne (v p : Vector3) (h : p ≠ Vector3.zero) :
    PointOffsetFunc v p = Vector3.add p v := by
  simp [PointOffsetFunc, h]

theorem apply_steps_zero (steps : List PointStep) :
    apply_steps steps Vector3.zero = Vector3.zero := by
  induction steps with
  | nil => rfl
  | cons s rest ih =>
    have hs : s.apply Vector3.zero = Vector3.zero := by
      cases s with
      | trans m => exact PointTransFunc_zero m
      | offset v => exact PointOffsetFunc_zero v
    simpa [apply_steps, List.foldl, hs] using ih

/-- The datum selection of a run that gets through is a datum. -/
theorem select_datum_of_runs_through (dd : Datum) (o : Options) (h : o.runs_through) :
    ∃ datum, select_datum dd o.reference_spheroid o.semi_major o.semi_minor
      = .selected datum := by
  obtain ⟨-, -, h3⟩ := h
  unfold select_datum
  rcases h3 with h3 | h3 | h3 <;> rw [h3] <;> simp
  split <;> simp

/-- The outcome of a run that gets through, block by block. -/
theorem main_of_selected (wb : Workbench) (o : Options) (datum : Datum)
    (h : o.runs_through)
    (hd : select_datum wb.default_datum o.reference_spheroid o.semi_major o.semi_minor
      = .selected datum) :
    main wb o =
      ⟨0,
       some (apply_z_offset o (apply_xyz_to_lonlat wb o (apply_rotation wb o (fun px => px)))),
       some (apply_reprojection wb o (configure_georef o datum)
         (apply_z_offset o (apply_xyz_to_lonlat wb o (apply_rotation wb o (fun px => px))))),
       some ((configure_georef o datum).set_transform wb.geo_transform),
       write_rasters o (configure_rasterizer wb o)
         ((configure_georef o datum).set_transform wb.geo_transform),
       write_offset_files o⟩ := by
  obtain ⟨h1, h2, -⟩ := h
  have h2n : o.input_file.isNone = false := by
    cases hf : o.input_file with
    | none => simp [hf] at h2
    | some f => rfl
  simp only [main, h1, h2n, hd]
  simp

/-! ## The claims -/

/-- C2: the zero vector is a fixed point of `PointTransFunc` for every
matrix and of `PointOffsetFunc` for every offset, and hence of every chain
of such steps. -/
theorem C2_sentinel_fixed_point :
    (∀ R : Matrix3x3, PointTransFunc R ⟨0, 0, 0⟩ = ⟨0, 0, 0⟩) ∧
    (∀ v : Vector3, PointOffsetFunc v ⟨0, 0, 0⟩ = ⟨0, 0, 0⟩) ∧
    (∀ steps : List PointStep, apply_steps steps ⟨0, 0, 0⟩ = ⟨0, 0, 0⟩) :=
  ⟨PointTransFunc_zero, PointOffsetFunc_zero, apply_steps_zero⟩

/-- C3, as stated, fails: the valid point (0, 0, -1) offset by 1 lands on
the zero vector, which the second `PointOffsetFunc` takes for a missing
pixel and leaves at zero. -/
theorem C3_offset_roundtrip_counterexample :
    PointOffsetFunc ⟨0, 0, -1⟩ (PointOffsetFunc ⟨0, 0, 1⟩ ⟨0, 0, -1⟩) = ⟨0, 0, 0⟩ ∧
    PointOffsetFunc ⟨0, 0, -1⟩ (PointOffsetFunc ⟨0, 0, 1⟩ ⟨0, 0, -1⟩) ≠ ⟨0, 0, -1⟩ := by
  have h : PointOffsetFunc ⟨0, 0, -1⟩ (PointOffsetFunc ⟨0, 0, 1⟩ ⟨0, 0, -1⟩) = ⟨0, 0, 0⟩ := by
    simp [PointOffsetFunc, Vector3.add, Vector3.zero]
  refine ⟨h, ?_⟩
  rw [h]
  simp

/-- C3, amended: for every point `p` and every `d`, unless `p` is the
non-zero point (0, 0, -d), offsetting by (0, 0, d) and then by (0, 0, -d)
gives back `p`. -/
theorem C3_offset_roundtrip (p : Vector3) (d : ℚ)
    (h : ¬ (p = ⟨0, 0, -d⟩ ∧ d ≠ 0)) :
    PointOffsetFunc ⟨0, 0, -d⟩ (PointOffsetFunc ⟨0, 0, d⟩ p) = p := by
  by_cases hp : p = Vector3.zero
  · subst hp
    rw [PointOffsetFunc_zero, PointOffsetFunc_zero]
  · rw [PointOffsetFunc_of_ne _ p hp]
    have hq : Vector3.add p ⟨0, 0, d⟩ ≠ Vector3.zero := by
      intro hq
      rw [Vector3.ext_iff3] at hq
      simp only [Vector3.add, Vector3.zero, add_zero] at hq
      obtain ⟨hx, hy, hz⟩ := hq
      have hpd : p = ⟨0, 0, -d⟩ := by
        rw [Vector3.ext_iff3]
        exact ⟨hx, hy, by show p.z = -d; linarith⟩
      apply h
      refine ⟨hpd, ?_⟩
      intro hd
      apply hp
      rw [hpd, hd]
      simp [Vector3.zero]
    rw [PointOffsetFunc_of_ne _ _ hq, Vector3.ext_iff3]
    simp [Vector3.add]

/-- The amended C3 at the point (1, 2, 3) and the offset 5. -/
theorem C3_offset_roundtrip_witness :
    PointOffsetFunc ⟨0, 0, -5⟩ (PointOffsetFunc ⟨0, 0, 5⟩ ⟨1, 2, 3⟩) = ⟨1, 2, 3⟩ :=
  C3_offset_roundtrip ⟨1, 2, 3⟩ 5 (by simp)

/-- C1, as stated, fails: with all three steps requested, the pixel
(1, 0, 0) reaches the reprojection block as (0, 1, 3), the offset of the
converted rotated point, and not as (0, 1, 5), the conversion of the offset
rotated point. -/
theorem C1_order_counterexample :
    transformed_point sample_workbench all_steps_options ⟨1, 0, 0⟩ = some ⟨0, 1, 3⟩ ∧
    sample_workbench.xyz_to_lon_lat_radius
      (PointOffsetFunc ⟨0, 0, 2⟩ (PointTransFunc quarter_turn_z ⟨1, 0, 0⟩)) = ⟨0, 1, 5⟩ ∧
    transformed_point sample_workbench all_steps_options ⟨1, 0, 0⟩ ≠
      some (sample_workbench.xyz_to_lon_lat_radius
        (PointOffsetFunc ⟨0, 0, 2⟩ (PointTransFunc quarter_turn_z ⟨1, 0, 0⟩))) := by
  have h1 : transformed_point sample_workbench all_steps_options ⟨1, 0, 0⟩
      = some ⟨0, 1, 3⟩ := by
    simp [transformed_point, main, all_steps_options, default_options, sample_workbench,
      apply_rotation, apply_xyz_to_lonlat, apply_z_offset, select_datum, PointTransFunc,
      PointOffsetFunc, Matrix3x3.mulVec, quarter_turn_z, Vector3.add, Vector3.zero]
    norm_num
  have h2 : sample_workbench.xyz_to_lon_lat_radius
      (PointOffsetFunc ⟨0, 0, 2⟩ (PointTransFunc quarter_turn_z ⟨1, 0, 0⟩)) = ⟨0, 1, 5⟩ := by
    simp [sample_workbench, PointTransFunc, PointOffsetFunc, Matrix3x3.mulVec, quarter_turn_z,
      Vector3.add, Vector3.zero]
    norm_num
  refine ⟨h1, h2, ?_⟩
  rw [h1, h2]
  simp

/-- C1, amended: in a run that gets through, the point handed to the
reprojection block is obtained by applying the requested steps in the order
rotation, conversion to longitude/latitude/radius, vertical offset; so with
all three requested it is `offset_d (g (R * p))`, for every pixel `p`, every
library (so every rotation matrix `R` and conversion `g`) and every non-zero
offset `d`. -/
theorem C1_order (wb : Workbench) (o : Options) (p : Vector3) (hrun : o.runs_through) :
    transformed_point wb o p = some (run_steps (ordered_steps wb o) p) ∧
    ((o.phi_rot ≠ 0 ∨ o.omega_rot ≠ 0 ∨ o.kappa_rot ≠ 0) → o.xyz_to_lonlat = true →
      o.z_offset ≠ 0 →
      transformed_point wb o p =
        some (PointOffsetFunc ⟨0, 0, o.z_offset⟩
          (wb.xyz_to_lon_lat_radius
            (PointTransFunc
              (wb.euler_to_rotation_matrix o.phi_rot o.omega_rot o.kappa_rot o.rot_order)
              p)))) := by
  obtain ⟨datum, hd⟩ := select_datum_of_runs_through wb.default_datum o hrun
  rw [transformed_point, main_of_selected wb o datum hrun hd]
  constructor
  · by_cases hrot : o.phi_rot ≠ 0 ∨ o.omega_rot ≠ 0 ∨ o.kappa_rot ≠ 0 <;>
      cases hconv : o.xyz_to_lonlat <;>
      by_cases hoff : o.z_offset ≠ 0 <;>
      simp [apply_z_offset, apply_xyz_to_lonlat, apply_rotation, ordered_steps, run_steps,
        hrot, hconv, hoff]
  · intro hrot hconv hoff
    simp only [apply_z_offset, apply_xyz_to_lonlat, apply_rotation, hconv, hoff, hrot,
      Option.map_some', if_true, ne_eq, not_false_eq_true]

/-- The amended C1 on the command line
`point2dem --phi-rotation 90 --xyz-to-lonlat --z-offset 2 points.tif`. -/
theorem C1_order_witness :
    all_steps_options.runs_through ∧
    transformed_point sample_workbench all_steps_options ⟨1, 0, 0⟩ =
      some (PointOffsetFunc ⟨0, 0, 2⟩
        (sample_workbench.xyz_to_lon_lat_radius (PointTransFunc quarter_turn_z ⟨1, 0, 0⟩))) :=
  ⟨by simp [Options.runs_through, all_steps_options, default_options],
   (C1_order sample_workbench all_steps_options ⟨1, 0, 0⟩
      (by simp [Options.runs_through, all_steps_options, default_options])).2
    (by simp [all_steps_options, default_options])
    (by simp [all_steps_options, default_options])
    (by simp [all_steps_options, default_options])⟩

/-- C9: with the three angles 0, no z-offset and no conversion, a run that
gets through hands every pixel, valid or zero, unchanged to the reprojection
block and to the rasterizer, whatever the rotation order and whatever
matrix the library would build for it. -/
theorem C9_zero_angles_identity (wb : Workbench) (o : Options) (p : Vector3)
    (hrun : o.runs_through)
    (hphi : o.phi_rot = 0) (homega : o.omega_rot = 0) (hkappa : o.kappa_rot = 0)
    (hoff : o.z_offset = 0) (hconv : o.xyz_to_lonlat = false) :
    transformed_point wb o p = some p ∧ rasterized_point wb o p = some p := by
  obtain ⟨datum, hd⟩ := select_datum_of_runs_through wb.default_datum o hrun
  rw [transformed_point, rasterized_point, main_of_selected wb o datum hrun hd]
  simp [apply_reprojection, apply_z_offset, apply_xyz_to_lonlat, apply_rotation, hphi, homega,
    hkappa, hoff, hconv]

/-- C9 on the command line `point2dem --rotation-order zyx points.tif` with
the pixel (1, 2, 3). -/
theorem C9_zero_angles_identity_witness :
    transformed_point sample_workbench
      { default_options "points.tif" with rot_order := "zyx" } ⟨1, 2, 3⟩ = some ⟨1, 2, 3⟩ ∧
    rasterized_point sample_workbench
      { default_options "points.tif" with rot_order := "zyx" } ⟨1, 2, 3⟩ = some ⟨1, 2, 3⟩ :=
  C9_zero_angles_identity sample_workbench
    { default_options "points.tif" with rot_order := "zyx" } ⟨1, 2, 3⟩
    (by simp [Options.runs_through, default_options]) rfl rfl rfl rfl rfl

/-- An unknown, non-empty reference spheroid ends the run with `exit(0)`
before anything is written. -/
theorem main_unknown_spheroid (wb : Workbench) (o : Options)
    (hhelp : o.help = false) (hin : o.input_file.isSome = true)
    (h0 : o.reference_spheroid ≠ "") (h1 : o.reference_spheroid ≠ "mars")
    (h2 : o.reference_spheroid ≠ "moon") :
    (main wb o).exit_status = 0 ∧ (main wb o).rasters = [] ∧ (main wb o).offset_files = [] := by
  have hin2 : o.input_file.isNone = false := by
    cases hf : o.input_file with
    | none => simp [hf] at hin
    | some f => rfl
  have hd : select_datum wb.default_datum o.reference_spheroid o.semi_major o.semi_minor
      = .exit 0 := by
    simp [select_datum, h0, h1, h2]
  simp [main, hhelp, hin2, hd]

/-- C4, the code at the failing input: with the reference spheroid
"europa" the run writes no file, as the claim says, but its exit status is
0, where the claim says non-zero; the run without an input file, the other
configuration error, ends with status 1. -/
theorem C4_unknown_spheroid_exit_status (wb : Workbench) :
    (main wb europa_options).exit_status = 0 ∧
    (main wb europa_options).rasters = [] ∧
    (main wb europa_options).offset_files = [] ∧
    (main wb no_input_options).exit_status = 1 := by
  refine ⟨?_, ?_, ?_, ?_⟩ <;>
    simp [main, europa_options, no_input_options, default_options, select_datum]

/-- C5: the preset "mars" resolves to a datum with both axes 3396000, the
preset "moon" to one with both axes 1737400, whatever the axis options; and
every datum a non-empty keyword resolves to has equal axes. -/
theorem C5_preset_radii :
    (∀ (dd : Datum) (a b : ℚ), ∃ d, select_datum dd "mars" a b = .selected d ∧
      d.semi_major_axis = 3396000 ∧ d.semi_minor_axis = 3396000) ∧
    (∀ (dd : Datum) (a b : ℚ), ∃ d, select_datum dd "moon" a b = .selected d ∧
      d.semi_major_axis = 1737400 ∧ d.semi_minor_axis = 1737400) ∧
    (∀ (dd : Datum) (kw : String) (a b : ℚ) (d : Datum), kw ≠ "" →
      select_datum dd kw a b = .selected d → d.semi_major_axis = d.semi_minor_axis) := by
  refine ⟨?_, ?_, ?_⟩
  · intro dd a b
    refine ⟨⟨"D_MARS", "MARS", "Reference Meridian", 3396000, 3396000, 0⟩, ?_, rfl, rfl⟩
    simp [select_datum, MOLA_PEDR_EQUATORIAL_RADIUS]
  · intro dd a b
    refine ⟨⟨"D_MOON", "MOON", "Reference Meridian", 1737400, 1737400, 0⟩, ?_, rfl, rfl⟩
    simp [select_datum, LUNAR_RADIUS]
  · intro dd kw a b d hkw hsel
    unfold select_datum at hsel
    rw [if_pos hkw] at hsel
    split at hsel
    · cases hsel; rfl
    · split at hsel
      · cases hsel; rfl
      · cases hsel

/-- C5 at the keyword "moon" with the axes 5 and 7 supplied as well. -/
theorem C5_preset_radii_witness :
    ∀ d : Datum, select_datum sample_workbench.default_datum "moon" 5 7 = .selected d →
      d.semi_major_axis = d.semi_minor_axis :=
  fun d => C5_preset_radii.2.2 sample_workbench.default_datum "moon" 5 7 d (by decide)

/-- C6: for "mars" and for "moon" the selected datum is the preset's,
whatever axes are supplied; whenever the keyword is non-empty or one axis is
zero the selection is what it is with both axes zero, so the supplied axes
are not used; and with an empty keyword and both axes non-zero the datum
carries the supplied axes. -/
theorem C6_preset_precedence :
    (∀ (dd : Datum) (a b : ℚ), select_datum dd "mars" a b =
      .selected ⟨"D_MARS", "MARS", "Reference Meridian", 3396000, 3396000, 0⟩) ∧
    (∀ (dd : Datum) (a b : ℚ), select_datum dd "moon" a b =
      .selected ⟨"D_MOON", "MOON", "Reference Meridian", 1737400, 1737400, 0⟩) ∧
    (∀ (dd : Datum) (kw : String) (a b : ℚ), ¬ (kw = "" ∧ a ≠ 0 ∧ b ≠ 0) →
      select_datum dd kw a b = select_datum dd kw 0 0) ∧
    (∀ (dd : Datum) (a b : ℚ), a ≠ 0 → b ≠ 0 → select_datum dd "" a b =
      .selected ⟨"User Specified Datum", "User Specified Spheroid", "Reference Meridian",
        a, b, 0⟩) := by
  refine ⟨?_, ?_, ?_, ?_⟩
  · intro dd a b
    simp [select_datum, MOLA_PEDR_EQUATORIAL_RADIUS]
  · intro dd a b
    simp [select_datum, LUNAR_RADIUS]
  · intro dd kw a b h
    unfold select_datum
    by_cases hkw : kw = ""
    · have hab : ¬ (a ≠ 0 ∧ b ≠ 0) := fun hab => h ⟨hkw, hab⟩
      simp [hkw, hab]
    · simp [hkw]
  · intro dd a b ha hb
    simp [select_datum, ha, hb]

/-- C6 at concrete inputs: "mars" with the axes 5 and 7 selects what
"mars" selects without axes, and the axes 5 and 7 alone are used. -/
theorem C6_preset_precedence_witness :
    select_datum sample_workbench.default_datum "mars" 5 7 =
      select_datum sample_workbench.default_datum "mars" 0 0 ∧
    select_datum sample_workbench.default_datum "" 5 7 =
      .selected ⟨"User Specified Datum", "User Specified Spheroid", "Reference Meridian",
        5, 7, 0⟩ :=
  ⟨C6_preset_precedence.2.2.1 sample_workbench.default_datum "mars" 5 7 (by simp),
   C6_preset_precedence.2.2.2 sample_workbench.default_datum 5 7 (by norm_num) (by norm_num)⟩

/-- C7: in orthoimage mode a run that gets through produces exactly one
raster pass, the file `<prefix>-DRG.tif` drawn from the rasterizer, and the
rasterizer's use-minimum-z-as-default flag is false when that pass is
produced; this holds for every `--default-value` and `--normalized`
setting. -/
theorem C7_orthoimage_single_pass (wb : Workbench) (o : Options) (texture_filename : String)
    (hrun : o.runs_through) (hortho : o.orthoimage = some texture_filename) :
    ∃ (rasterizer : Rasterizer) (georef : GeoReference),
      (main wb o).rasters =
        [⟨o.out_prefix_str ++ "-DRG.tif", .rasterizer rasterizer, true, georef⟩] ∧
      rasterizer.use_minz_as_default = false ∧
      rasterizer.texture = some texture_filename := by
  obtain ⟨datum, hd⟩ := select_datum_of_runs_through wb.default_datum o hrun
  rw [main_of_selected wb o datum hrun hd]
  simp only [write_rasters, hortho]
  exact ⟨_, _, rfl, rfl, rfl⟩

/-- C7 on the command line
`point2dem --orthoimage texture.tif --normalized --default-value 7 points.tif`. -/
theorem C7_orthoimage_single_pass_witness :
    orthoimage_options.runs_through ∧
    ∃ (rasterizer : Rasterizer) (georef : GeoReference),
      (main sample_workbench orthoimage_options).rasters =
        [⟨ orthoimage_options.out_prefix_str ++ "-DRG.tif", .rasterizer rasterizer, true,
          georef⟩] ∧
      rasterizer.use_minz_as_default = false ∧
      rasterizer.texture = some "texture.tif" :=
  ⟨by simp [Options.runs_through, orthoimage_options, default_options],
   C7_orthoimage_single_pass sample_workbench orthoimage_options "texture.tif"
    (by simp [Options.runs_through, orthoimage_options, default_options]) rfl⟩

/-- C8, as stated, fails: the axes 1 and 2 give a user datum whose
semi-major axis is below its semi-minor axis, and the axes 1 and -2 give one
whose semi-minor axis is negative. -/
theorem C8_user_axes_counterexample :
    (∃ d, select_datum sample_workbench.default_datum "" 1 2 = .selected d ∧
      d.name = "User Specified Datum" ∧
      ¬ (d.semi_major_axis ≥ d.semi_minor_axis ∧ d.semi_minor_axis > 0)) ∧
    (∃ d, select_datum sample_workbench.default_datum "" 1 (-2) = .selected d ∧
      d.name = "User Specified Datum" ∧
      ¬ (d.semi_major_axis ≥ d.semi_minor_axis ∧ d.semi_minor_axis > 0)) := by
  constructor
  · refine ⟨⟨"User Specified Datum", "User Specified Spheroid", "Reference Meridian",
      1, 2, 0⟩, ?_, rfl, ?_⟩
    · simp [select_datum]
    · norm_num
  · refine ⟨⟨"User Specified Datum", "User Specified Spheroid", "Reference Meridian",
      1, -2, 0⟩, ?_, rfl, ?_⟩
    · simp [select_datum]
    · norm_num

/-- C8, amended: whenever the user-specified branch is taken (empty
keyword, both axes non-zero), the datum built is the user datum carrying
the two supplied values unchanged, so both of its axes are non-zero. -/
theorem C8_user_axes (dd : Datum) (semi_major semi_minor : ℚ)
    (hmajor : semi_major ≠ 0) (hminor : semi_minor ≠ 0) :
    ∃ d, select_datum dd "" semi_major semi_minor = .selected d ∧
      d.name = "User Specified Datum" ∧
      d.semi_major_axis = semi_major ∧ d.semi_minor_axis = semi_minor ∧
      d.semi_major_axis ≠ 0 ∧ d.semi_minor_axis ≠ 0 := by
  refine ⟨⟨"User Specified Datum", "User Specified Spheroid", "Reference Meridian",
    semi_major, semi_minor, 0⟩, ?_, rfl, rfl, rfl, hmajor, hminor⟩
  simp [select_datum, hmajor, hminor]

/-- The amended C8 at the axes 1 and 2. -/
theorem C8_user_axes_witness :
    ∃ d, select_datum sample_workbench.default_datum "" 1 2 = .selected d ∧
      d.name = "User Specified Datum" ∧
      d.semi_major_axis = 1 ∧ d.semi_minor_axis = 2 ∧
      d.semi_major_axis ≠ 0 ∧ d.semi_minor_axis ≠ 0 :=
  C8_user_axes sample_workbench.default_datum 1 2 (by norm_num) (by norm_num)

/-- The setter calls made by the chain of `if`/`else if` are the ones the
specification prescribes. -/
theorem configure_georef_calls (o : Options) (datum : Datum) :
    configure_georef o datum = ⟨datum, spec_projection_calls o, []⟩ := by
  cases hx : o.xyz_to_lonlat <;> cases hs : o.sinusoidal <;> cases hm : o.mercator <;>
    cases ht : o.transverse_mercator <;> cases ho : o.orthographic <;>
    cases hg : o.stereographic <;> cases hl : o.lambert_azimuthal <;> cases hu : o.utm <;>
    simp [configure_georef, spec_projection_calls, first_listed_wins, projection_flags,
      GeoReference.call, hx, hs, hm, ht, ho, hg, hl, hu]

/-- With no projection flag set, first-listed-wins makes no call. -/
theorem first_listed_wins_none (o : Options)
    (hs : o.sinusoidal = false) (hm : o.mercator = false)
    (ht : o.transverse_mercator = false) (ho : o.orthographic = false)
    (hg : o.stereographic = false) (hl : o.lambert_azimuthal = false) (hu : o.utm = none) :
    first_listed_wins o = [] := by
  simp [first_listed_wins, projection_flags, hs, hm, ht, ho, hg, hl, hu]

/-- C10: in a run that gets through, the georeference carries the selected
datum, the projection calls the specification prescribes (the fixed
Mercator(0, 0, 1) without `--xyz-to-lonlat`; with it, the single call of the
first flag set in the order sinusoidal, mercator, transverse-mercator,
orthographic, stereographic, lambert-azimuthal, utm, or no call when none is
set) and the one affine transform; and the pixel given to the rasterizer is
the reprojected pixel when `--xyz-to-lonlat` is present and the pixel
itself when it is absent. -/
theorem C10_projection_selection (wb : Workbench) (o : Options) (hrun : o.runs_through) :
    ∃ datum, select_datum wb.default_datum o.reference_spheroid o.semi_major o.semi_minor
        = .selected datum ∧
      (main wb o).georef = some ⟨datum, spec_projection_calls o, [wb.geo_transform]⟩ ∧
      ∀ p, rasterized_point wb o p =
        (transformed_point wb o p).map (fun q =>
          if o.xyz_to_lonlat then
            wb.project_point_image ⟨datum, spec_projection_calls o, []⟩ q
          else q) := by
  obtain ⟨datum, hd⟩ := select_datum_of_runs_through wb.default_datum o hrun
  refine ⟨datum, hd, ?_, ?_⟩
  · rw [main_of_selected wb o datum hrun hd, configure_georef_calls]
    simp [GeoReference.set_transform]
  · intro p
    rw [rasterized_point, transformed_point, main_of_selected wb o datum hrun hd,
      configure_georef_calls]
    cases hx : o.xyz_to_lonlat <;> simp [apply_reprojection, hx]

/-- C10 on the command line
`point2dem --xyz-to-lonlat --mercator --utm 12 --orthographic --proj-lat 10
--proj-lon 20 -r moon points.tif`: mercator, the first of the three flags in the order, wins. -/
theorem C10_projection_selection_witness :
    projection_options.runs_through ∧
    spec_projection_calls projection_options = [.set_mercator 10 20 1] ∧
    ∃ datum, select_datum sample_workbench.default_datum
          projection_options.reference_spheroid projection_options.semi_major
          projection_options.semi_minor = .selected datum ∧
      (main sample_workbench projection_options).georef =
        some ⟨datum, spec_projection_calls projection_options,
          [sample_workbench.geo_transform]⟩ ∧
      ∀ p, rasterized_point sample_workbench projection_options p =
        (transformed_point sample_workbench projection_options p).map (fun q =>
          if projection_options.xyz_to_lonlat then
            sample_workbench.project_point_image
              ⟨datum, spec_projection_calls projection_options, []⟩ q
          else q) :=
  ⟨by simp [Options.runs_through, projection_options, default_options],
   by simp [spec_projection_calls, first_listed_wins, projection_flags, projection_options,
     default_options],
   C10_projection_selection sample_workbench projection_options
    (by simp [Options.runs_through, projection_options, default_options])⟩

end Point2Dem
